import Mathlib

/-!
Shallow embedding of `src/session_checker.py`.

Strings are modelled as `List Char`.  Python's `needle in hay` substring
test is `containsSubChars`, `str.rstrip('/')` is `rstripSlash`, and
`str.lower()` is `toLowerStr` (only ASCII keywords are involved).  A
Python number stored under a cookie's `expiry` key is `PyNum`, where a
float's numeric value is carried as a rational and Python's `int(...)`
truncation toward zero is `pyTruncFloat`.  Per-item driver calls that may
raise are modelled by a Bool-valued oracle saying whether the call
succeeds; the file writes, navigations and browser shutdown of one loop
iteration are recorded in program order as an `Event` list.
-/

/-- Python `s.rstrip('/')`: drop every trailing `'/'` (line 337). -/
def rstripSlash (s : List Char) : List Char :=
  (s.reverse.dropWhile (fun c => c = '/')).reverse

/-- Python `s.lower()` (line 342), as the ASCII case map: the five login
keywords compared against it are ASCII. -/
def toLowerStr (s : List Char) : List Char := s.map Char.toLower

/-- Python `needle in hay` on strings: `needle` occurs contiguously in `hay`. -/
def containsSubChars (needle : List Char) : List Char → Bool
  | [] => needle.isEmpty
  | c :: t => needle.isPrefixOf (c :: t) || containsSubChars needle t

/-- The login-page keywords of line 342. -/
def LOGIN_KEYWORDS : List (List Char) :=
  ["login".data, "signin".data, "authenticate".data, "consent".data, "auth/realms".data]

/-- Lines 336-345: the session-validity classification of one loop
iteration, as a function of the configured target URL and the URL the
browser reports after the final wait. -/
def is_session_valid (INITIAL_URL current_url_after_wait : List Char) : Bool :=
  if rstripSlash INITIAL_URL = rstripSlash current_url_after_wait then true
  else if containsSubChars INITIAL_URL current_url_after_wait then true
  else if !(LOGIN_KEYWORDS.any fun keyword =>
      containsSubChars keyword (toLowerStr current_url_after_wait)) then true
  else false

/-- A Python number as stored under a cookie's `expiry` key: an `int`, or
a `float` whose exact numeric value is the rational `q`. -/
inductive PyNum where
  | pyInt (n : Int)
  | pyFloat (q : ℚ)
deriving DecidableEq

/-- Python `int(q)` applied to a float value: truncation toward zero. -/
def pyTruncFloat (q : ℚ) : Int := Int.tdiv q.num q.den

/-- A cookie record as the script sees it: the fields Selenium
serializes, with `expiry` optional (`'expiry' in cookie`, line 293). -/
structure Cookie where
  name : List Char
  value : List Char
  domain : List Char
  path : List Char
  expiry : Option PyNum
  secure : Bool
deriving DecidableEq

/-- Lines 292-294: if the cookie carries a float `expiry`, replace it by
its integer truncation before `driver.add_cookie`; otherwise the record
is left unchanged. -/
def normalizeExpiry (cookie : Cookie) : Cookie :=
  match cookie.expiry with
  | some (PyNum.pyFloat q) => { cookie with expiry := some (PyNum.pyInt (pyTruncFloat q)) }
  | _ => cookie

/-- Lines 288-302: the cookie-injection loop.  `attempt c = true` means
`driver.add_cookie c` succeeds, `false` that it raises; the script
catches the exception per item, logs, and moves on.  Returns the success
count, the error count, and the list of cookies actually passed to
`add_cookie`, in order. -/
def injectCookies (attempt : Cookie → Bool) : List Cookie → Nat × Nat × List Cookie
  | [] => (0, 0, [])
  | cookie :: rest =>
    let injected := normalizeExpiry cookie
    let r := injectCookies attempt rest
    if attempt injected then (r.1 + 1, r.2.1, injected :: r.2.2)
    else (r.1, r.2.1 + 1, injected :: r.2.2)

/-- Python truthiness of a stored storage value (`if value:` on lines 135
and 143): `None` and the empty string are falsy. -/
def truthyStr : Option (List Char) → Bool
  | none => false
  | some s => !s.isEmpty

/-- Lines 134-139 (and identically 142-147): one storage mapping is
walked in order; a key whose value is falsy is skipped, otherwise
`setItem` is attempted; `attempt k v = false` means the driver call
raises, which the script catches per item.  Returns the keys attempted
and the keys whose `setItem` failed, in order. -/
def restoreEntries (attempt : List Char → Option (List Char) → Bool) :
    List (List Char × Option (List Char)) → List (List Char) × List (List Char)
  | [] => ([], [])
  | (key, value) :: rest =>
    if truthyStr value then
      let r := restoreEntries attempt rest
      if attempt key value then (key :: r.1, r.2) else (key :: r.1, key :: r.2)
    else restoreEntries attempt rest

/-- The externally visible actions of one revalidation-loop iteration, in
program order: page navigations, the storage restore, the cookie
injection, the page refresh of line 305, the two file writes, and the
browser shutdown. -/
inductive Event where
  | navigateDomain
  | restoreStorage
  | addCookies
  | refreshPage
  | navigateTarget
  | saveCookieFile
  | saveStorageFile
  | quitBrowser
deriving DecidableEq

/-- The environment-dependent inputs of one loop iteration: the URL the
browser reports after the final wait (line 325), the cookies
`driver.get_cookies()` returns in the valid branch (line 350), and the
cookie file's metadata for the staleness check (lines 262-266). -/
structure IterInput where
  currentUrl : List Char
  freshCookies : List Cookie
  cookieFileExists : Bool
  cookieFileAgeHours : ℚ

/-- The outcome of one loop iteration. -/
structure IterResult where
  events : List Event
  savedAfter : List Cookie
  continuesLoop : Bool
  staleWarning : Bool

/-- Lines 252-368: the body of one revalidation-loop iteration as a
function of the held `saved_cookies` list and the iteration's browser
inputs.  `savedAfter` is the value of `saved_cookies` when the iteration
ends — the injection loop of lines 291-294 mutates the held records in
place, hence the `normalizeExpiry` map; `continuesLoop` says whether the
`while True` loop runs again rather than hitting the `break` of line
368; `staleWarning` is the age warning of line 266, which only logs.
The cookie file is rewritten only under the guard of line 351:
`new_cookies and len(new_cookies) >= len(saved_cookies)`. -/
def iterStep (INITIAL_URL : List Char) (saved_cookies : List Cookie) (inp : IterInput) :
    IterResult :=
  let staleWarning := inp.cookieFileExists && decide ((24 : ℚ) < inp.cookieFileAgeHours)
  let mutated := saved_cookies.map normalizeExpiry
  let pre : List Event :=
    [Event.navigateDomain, Event.restoreStorage, Event.addCookies,
     Event.refreshPage, Event.navigateTarget]
  if is_session_valid INITIAL_URL inp.currentUrl then
    if inp.freshCookies ≠ [] ∧ mutated.length ≤ inp.freshCookies.length then
      { events := pre ++ [Event.saveCookieFile, Event.saveStorageFile, Event.quitBrowser]
        savedAfter := inp.freshCookies
        continuesLoop := true
        staleWarning := staleWarning }
    else
      { events := pre ++ [Event.saveStorageFile, Event.quitBrowser]
        savedAfter := mutated
        continuesLoop := true
        staleWarning := staleWarning }
  else
    { events := pre ++ [Event.quitBrowser]
      savedAfter := mutated
      continuesLoop := false
      staleWarning := staleWarning }

/-- Line 257: the sleep before the `loop_count`-th check, in seconds. -/
def wait_time (INITIAL_WAIT_TIME WAIT_TIME_INCREMENT : Int) (loop_count : Nat) : Int :=
  (INITIAL_WAIT_TIME + ((loop_count : Int) - 1) * WAIT_TIME_INCREMENT) * 60

/-- Lines 229-247: the tail of the first-login bootstrap, after the
manual wait.  `save_local_storage` (line 233) runs unconditionally before
the cookie check of line 236; `browser_cookies` is `driver.get_cookies()`
(line 235).  Returns the file-writing and shutdown events in order and
whether the run proceeds into the revalidation loop (the `return` of
line 243 aborts otherwise). -/
def first_login_step (browser_cookies : List Cookie) : List Event × Bool :=
  if browser_cookies.isEmpty then ([Event.saveStorageFile], false)
  else ([Event.saveStorageFile, Event.saveCookieFile, Event.quitBrowser], true)

/-- The value of `saved_cookies` after `n` completed loop iterations,
when the `k`-th iteration (0-based) sees inputs `inputs k` and the loop
starts from `init`. -/
def savedAfterN (INITIAL_URL : List Char) (inputs : Nat → IterInput) (init : List Cookie) :
    Nat → List Cookie
  | 0 => init
  | n + 1 =>
    (iterStep INITIAL_URL (savedAfterN INITIAL_URL inputs init n) (inputs n)).savedAfter

/-- The `while True` loop of line 252 executes its `n`-th iteration
(0-based) exactly when no earlier iteration hit the `break` of line
368. -/
def performsIteration (INITIAL_URL : List Char) (inputs : Nat → IterInput)
    (init : List Cookie) (n : Nat) : Prop :=
  ∀ k, k < n →
    (iterStep INITIAL_URL (savedAfterN INITIAL_URL inputs init k) (inputs k)).continuesLoop
      = true

/-- Fixture: a short target URL. -/
def urlW : List Char := "https://e.com/d".data

/-- Fixture: a cookie without an `expiry` field. -/
def cookieW : Cookie :=
  { name := "sid".data, value := "v1".data, domain := "e.com".data,
    path := "/".data, expiry := none, secure := true }

/-- Fixture: a cookie whose `expiry` is the float `5.0`. -/
def cookieFloatW : Cookie :=
  { name := "exp".data, value := "v".data, domain := "e.com".data,
    path := "/".data, expiry := some (PyNum.pyFloat 5), secure := false }

/-- Fixture: an iteration input whose final URL equals the target but
whose freshly read cookie list is empty. -/
def inpSameUrl : IterInput :=
  { currentUrl := "https://e.com/d".data, freshCookies := [],
    cookieFileExists := true, cookieFileAgeHours := 30 }

/-- Fixture: an iteration input whose final URL equals the target and
whose freshly read cookie list holds one cookie. -/
def inpGoodW : IterInput :=
  { currentUrl := "https://e.com/d".data, freshCookies := [cookieW],
    cookieFileExists := true, cookieFileAgeHours := 30 }

/-- Fixture: an iteration input redirected to a login page. -/
def inpBadW : IterInput :=
  { currentUrl := "https://e.com/login".data, freshCookies := [],
    cookieFileExists := false, cookieFileAgeHours := 0 }

/-- Fixture: an input stream that always reports the target URL. -/
def goodInputs : Nat → IterInput := fun _ => inpSameUrl

/-- Fixture: an input stream that always reports a login redirect. -/
def badInputs : Nat → IterInput := fun _ => inpBadW

/-- Fixture: a storage mapping with a `None` value, a non-empty value and
an empty-string value. -/
def entriesW : List (List Char × Option (List Char)) :=
  [("a".data, none), ("b".data, some "x".data), ("c".data, some [])]

/-- Helper: the loop continues after an iteration exactly when its
classification was valid. -/
theorem continuesLoop_eq_valid (INITIAL_URL : List Char) (saved : List Cookie)
    (inp : IterInput) :
    (iterStep INITIAL_URL saved inp).continuesLoop =
      is_session_valid INITIAL_URL inp.currentUrl := by
  unfold iterStep
  by_cases hv : is_session_valid INITIAL_URL inp.currentUrl = true
  · rw [if_pos hv, hv]
    split <;> rfl
  · rw [if_neg hv]
    cases h : is_session_valid INITIAL_URL inp.currentUrl
    · rfl
    · exact absurd h hv

/-- Helper: the injection loop passes every cookie, expiry-normalized and
in order, to `add_cookie`, whatever the failure pattern. -/
theorem injectCookies_attempted (attempt : Cookie → Bool) (cookies : List Cookie) :
    (injectCookies attempt cookies).2.2 = cookies.map normalizeExpiry := by
  induction cookies with
  | nil => rfl
  | cons c rest ih =>
    by_cases h : attempt (normalizeExpiry c) = true <;> simp [injectCookies, h, ih]

/-- Helper: success and error counts of the injection loop sum to the
number of cookies. -/
theorem injectCookies_counts (attempt : Cookie → Bool) (cookies : List Cookie) :
    (injectCookies attempt cookies).1 + (injectCookies attempt cookies).2.1
      = cookies.length := by
  induction cookies with
  | nil => rfl
  | cons c rest ih =>
    by_cases h : attempt (normalizeExpiry c) = true <;>
      simp [injectCookies, h] <;> omega

/-- Helper: the storage-restore loop attempts exactly the truthy-valued
keys, in order, whatever the failure pattern. -/
theorem restoreEntries_attempted (attempt : List Char → Option (List Char) → Bool)
    (entries : List (List Char × Option (List Char))) :
    (restoreEntries attempt entries).1
      = (entries.filter fun kv => truthyStr kv.2).map Prod.fst := by
  induction entries with
  | nil => rfl
  | cons kv rest ih =>
    obtain ⟨key, value⟩ := kv
    by_cases h : truthyStr value = true
    · by_cases h2 : attempt key value = true <;>
        simp [restoreEntries, h, h2, ih, List.filter_cons]
    · simp [restoreEntries, h, ih, List.filter_cons]

/-- Helper: in a mapping with pairwise-distinct keys, a key determines
its value. -/
theorem pairMem_unique {α β : Type} {entries : List (α × β)}
    (hnodup : (entries.map Prod.fst).Nodup) {k : α} {v v' : β}
    (hv : (k, v) ∈ entries) (hv' : (k, v') ∈ entries) : v = v' := by
  induction entries with
  | nil => cases hv
  | cons kv rest ih =>
    rw [List.map_cons, List.nodup_cons] at hnodup
    rcases List.mem_cons.mp hv with h1 | h1 <;> rcases List.mem_cons.mp hv' with h2 | h2
    · exact congrArg Prod.snd (h1.trans h2.symm)
    · exfalso
      apply hnodup.1
      have hk : k ∈ rest.map Prod.fst := List.mem_map.mpr ⟨(k, v'), h2, rfl⟩
      rw [← h1]
      exact hk
    · exfalso
      apply hnodup.1
      have hk : k ∈ rest.map Prod.fst := List.mem_map.mpr ⟨(k, v), h1, rfl⟩
      rw [← h2]
      exact hk
    · exact ih hnodup.2 h1 h2

/-- C1: for every pair of URLs, the validity classification of lines
336-345 returns `true` exactly when the current URL equals the target
modulo trailing slashes, or the target occurs as a substring of the
current URL, or the lowercased current URL contains none of the five
fixed login keywords; in every other case it returns `false`. -/
theorem url_validity_classification (INITIAL_URL current : List Char) :
    is_session_valid INITIAL_URL current = true ↔
      (rstripSlash INITIAL_URL = rstripSlash current ∨
       containsSubChars INITIAL_URL current = true ∨
       ∀ keyword ∈ LOGIN_KEYWORDS,
         containsSubChars keyword (toLowerStr current) = false) := by
  unfold is_session_valid
  split
  next h1 => exact ⟨fun _ => Or.inl h1, fun _ => rfl⟩
  next h1 =>
    split
    next h2 => exact ⟨fun _ => Or.inr (Or.inl h2), fun _ => rfl⟩
    next h2 =>
      split
      next h3 =>
        refine ⟨fun _ => Or.inr (Or.inr fun kw hkw => ?_), fun _ => rfl⟩
        cases hany : LOGIN_KEYWORDS.any fun keyword =>
            containsSubChars keyword (toLowerStr current)
        · cases hpk : containsSubChars kw (toLowerStr current)
          · rfl
          · rw [List.any_eq_true.mpr ⟨kw, hkw, hpk⟩] at hany
            exact absurd hany (by simp)
        · rw [hany] at h3
          exact absurd h3 (by simp)
      next h3 =>
        constructor
        · intro h
          exact absurd h (by simp)
        · rintro (h | h | h)
          · exact absurd h h1
          · exact absurd h h2
          · exfalso
            apply h3
            have hany : (LOGIN_KEYWORDS.any fun keyword =>
                containsSubChars keyword (toLowerStr current)) = false := by
              rw [List.any_eq_false]
              intro kw hkw
              rw [h kw hkw]
              simp
            rw [hany]
            rfl

/-- C2: the sleep before the `n`-th check (`n ≥ 1`) is
`(INITIAL_WAIT_TIME + (n-1)*WAIT_TIME_INCREMENT)*60` seconds (line 257);
the schedule is monotonically non-decreasing whenever the increment is
non-negative, and unbounded whenever the increment is positive. -/
theorem backoff_schedule (initial increment : Int) :
    (∀ n : Nat, 1 ≤ n →
        wait_time initial increment n = (initial + ((n : Int) - 1) * increment) * 60) ∧
    (0 ≤ increment → ∀ m n : Nat, m ≤ n →
        wait_time initial increment m ≤ wait_time initial increment n) ∧
    (0 < increment → ∀ bound : Int,
        ∃ n : Nat, 1 ≤ n ∧ bound < wait_time initial increment n) := by
  refine ⟨fun n _ => rfl, fun hinc m n hmn => ?_, fun hinc bound => ?_⟩
  · unfold wait_time
    have h1 : ((m : Int) - 1) * increment ≤ ((n : Int) - 1) * increment := by
      apply mul_le_mul_of_nonneg_right _ hinc
      omega
    linarith
  · refine ⟨(bound - initial * 60).toNat + 2, by omega, ?_⟩
    unfold wait_time
    have h1 : bound - initial * 60 ≤ ((bound - initial * 60).toNat : Int) :=
      Int.self_le_toNat _
    have h2 : (0 : Int) ≤ ((bound - initial * 60).toNat : Int) := by positivity
    have h3 : (1 : Int) ≤ increment := hinc
    push_cast
    nlinarith [mul_nonneg (by linarith :
        (0 : Int) ≤ ((bound - initial * 60).toNat : Int) + 1) (by linarith :
        (0 : Int) ≤ increment - 1)]

/-- Witness for C2 at the script's default configuration 55/5. -/
theorem backoff_schedule_witness :
    wait_time 55 5 1 = 3300 ∧ wait_time 55 5 2 ≤ wait_time 55 5 3 ∧
      ∃ n : Nat, 1 ≤ n ∧ 1000000 < wait_time 55 5 n := by
  obtain ⟨h1, h2, h3⟩ := backoff_schedule 55 5
  refine ⟨?_, h2 (by decide) 2 3 (by decide), h3 (by decide) 1000000⟩
  rw [h1 1 (by decide)]
  decide

/-- C3 counterexample: with no cookies after the manual wait the
bootstrap does abort before the loop and never writes the cookie file,
but the claim "neither the cookie file nor the storage-snapshot file is
written" is false: `save_local_storage` (line 233) has already written
the storage snapshot before the cookie check of line 236. -/
theorem bootstrap_empty_cookies_cex :
    ¬ (Event.saveStorageFile ∉ (first_login_step []).1 ∧
       Event.saveCookieFile ∉ (first_login_step []).1 ∧
       (first_login_step []).2 = false) := by decide

/-- C3 amended: if no cookies are present after the manual-login wait,
the bootstrap aborts the run before the revalidation loop and does not
write the cookie file; the storage-snapshot file, however, has already
been written by the unconditional `save_local_storage` call that precedes
the cookie check. -/
theorem bootstrap_empty_cookies_abort :
    (first_login_step []).2 = false ∧
    Event.saveCookieFile ∉ (first_login_step []).1 ∧
    Event.saveStorageFile ∈ (first_login_step []).1 := by decide

/-- C4 counterexample: an iteration classified valid (the current URL
equals the target) in which `driver.get_cookies()` returns an empty
list: the guard of line 351 fails and the cookie file is not persisted,
refuting "persists the current cookies ... in every valid iteration". -/
theorem valid_iteration_cex :
    is_session_valid urlW inpSameUrl.currentUrl = true ∧
    Event.saveCookieFile ∉ (iterStep urlW [cookieW] inpSameUrl).events := by decide

/-- C4 amended: in every iteration classified valid, the page has been
refreshed (earlier in the iteration, at line 305), the storage snapshot
is persisted and the loop continues; the cookie file is persisted exactly
when the freshly read cookie list is non-empty and at least as long as
the held list.  In every iteration classified invalid the loop terminates
and neither file is written. -/
theorem valid_iteration_persistence (INITIAL_URL : List Char) (saved : List Cookie)
    (inp : IterInput) :
    (is_session_valid INITIAL_URL inp.currentUrl = true →
      Event.refreshPage ∈ (iterStep INITIAL_URL saved inp).events ∧
      Event.saveStorageFile ∈ (iterStep INITIAL_URL saved inp).events ∧
      (iterStep INITIAL_URL saved inp).continuesLoop = true ∧
      (Event.saveCookieFile ∈ (iterStep INITIAL_URL saved inp).events ↔
        (inp.freshCookies ≠ [] ∧ saved.length ≤ inp.freshCookies.length))) ∧
    (is_session_valid INITIAL_URL inp.currentUrl = false →
      (iterStep INITIAL_URL saved inp).continuesLoop = false ∧
      Event.saveStorageFile ∉ (iterStep INITIAL_URL saved inp).events ∧
      Event.saveCookieFile ∉ (iterStep INITIAL_URL saved inp).events) := by
  by_cases hc : inp.freshCookies ≠ [] ∧
      (saved.map normalizeExpiry).length ≤ inp.freshCookies.length
  · constructor
    · intro hv
      have hc2 : inp.freshCookies ≠ [] ∧ saved.length ≤ inp.freshCookies.length := by
        rw [List.length_map] at hc
        exact hc
      simp [iterStep, hv, hc, hc2]
    · intro hv
      simp [iterStep, hv, hc]
  · constructor
    · intro hv
      have hc2 : ¬ (inp.freshCookies ≠ [] ∧ saved.length ≤ inp.freshCookies.length) := by
        rw [List.length_map] at hc
        exact hc
      simp [iterStep, hv, hc, hc2]
    · intro hv
      simp [iterStep, hv, hc]

/-- Witness for C4 at concrete inputs: a valid iteration with a
non-empty fresh cookie list, and an invalid iteration. -/
theorem valid_iteration_persistence_witness :
    Event.saveStorageFile ∈ (iterStep urlW [cookieW] inpGoodW).events ∧
    (iterStep urlW [] inpBadW).continuesLoop = false := by
  refine ⟨((valid_iteration_persistence urlW [cookieW] inpGoodW).1 (by decide)).2.1, ?_⟩
  exact ((valid_iteration_persistence urlW [] inpBadW).2 (by decide)).1

/-- C5: a cookie whose `expiry` field holds a float has that value
truncated to an integer before injection (lines 292-294); a cookie
without an `expiry` field or with a non-float `expiry` is injected
unchanged. -/
theorem expiry_normalization (cookie : Cookie) :
    (∀ q : ℚ, cookie.expiry = some (PyNum.pyFloat q) →
      normalizeExpiry cookie
        = { cookie with expiry := some (PyNum.pyInt (pyTruncFloat q)) }) ∧
    ((∀ q : ℚ, cookie.expiry ≠ some (PyNum.pyFloat q)) →
      normalizeExpiry cookie = cookie) := by
  constructor
  · intro q hq
    simp [normalizeExpiry, hq]
  · intro hq
    cases h : cookie.expiry with
    | none => simp [normalizeExpiry, h]
    | some p =>
      cases p with
      | pyInt n => simp [normalizeExpiry, h]
      | pyFloat q => exact absurd h (hq q)

/-- Witness for C5: a float expiry of `5.0` is truncated, a cookie with
no expiry is unchanged. -/
theorem expiry_normalization_witness :
    normalizeExpiry cookieFloatW
      = { cookieFloatW with expiry := some (PyNum.pyInt (pyTruncFloat 5)) } ∧
    normalizeExpiry cookieW = cookieW := by
  constructor
  · exact (expiry_normalization cookieFloatW).1 5 rfl
  · refine (expiry_normalization cookieW).2 fun q => ?_
    simp [cookieW]

/-- Helper: the valid-and-replace branch of the iteration body. -/
theorem iterStep_eq_replace (INITIAL_URL : List Char) (saved : List Cookie)
    (inp : IterInput)
    (hv : is_session_valid INITIAL_URL inp.currentUrl = true)
    (hc : inp.freshCookies ≠ [] ∧
      (saved.map normalizeExpiry).length ≤ inp.freshCookies.length) :
    iterStep INITIAL_URL saved inp =
      { events := [Event.navigateDomain, Event.restoreStorage, Event.addCookies,
          Event.refreshPage, Event.navigateTarget, Event.saveCookieFile,
          Event.saveStorageFile, Event.quitBrowser]
        savedAfter := inp.freshCookies
        continuesLoop := true
        staleWarning := inp.cookieFileExists
          && decide ((24 : ℚ) < inp.cookieFileAgeHours) } := by
  simp only [iterStep]
  split <;> simp_all

/-- Helper: the valid-and-keep branch of the iteration body. -/
theorem iterStep_eq_keep (INITIAL_URL : List Char) (saved : List Cookie)
    (inp : IterInput)
    (hv : is_session_valid INITIAL_URL inp.currentUrl = true)
    (hc : ¬ (inp.freshCookies ≠ [] ∧
      (saved.map normalizeExpiry).length ≤ inp.freshCookies.length)) :
    iterStep INITIAL_URL saved inp =
      { events := [Event.navigateDomain, Event.restoreStorage, Event.addCookies,
          Event.refreshPage, Event.navigateTarget,
          Event.saveStorageFile, Event.quitBrowser]
        savedAfter := saved.map normalizeExpiry
        continuesLoop := true
        staleWarning := inp.cookieFileExists
          && decide ((24 : ℚ) < inp.cookieFileAgeHours) } := by
  simp only [iterStep]
  split <;> simp_all

/-- Helper: the invalid branch of the iteration body. -/
theorem iterStep_eq_invalid (INITIAL_URL : List Char) (saved : List Cookie)
    (inp : IterInput)
    (hv : is_session_valid INITIAL_URL inp.currentUrl = false) :
    iterStep INITIAL_URL saved inp =
      { events := [Event.navigateDomain, Event.restoreStorage, Event.addCookies,
          Event.refreshPage, Event.navigateTarget, Event.quitBrowser]
        savedAfter := saved.map normalizeExpiry
        continuesLoop := false
        staleWarning := inp.cookieFileExists
          && decide ((24 : ℚ) < inp.cookieFileAgeHours) } := by
  simp only [iterStep]
  split <;> simp_all

/-- C6: the `while True` loop never performs another iteration after one
whose classification judged the session expired (the `break` of line 368
is the only exit of the embedded step, so termination raises nothing),
and while every classification is valid every iteration is performed. -/
theorem loop_termination (INITIAL_URL : List Char) (inputs : Nat → IterInput)
    (init : List Cookie) :
    (∀ m n : Nat, m < n →
      (iterStep INITIAL_URL (savedAfterN INITIAL_URL inputs init m) (inputs m)).continuesLoop
          = false →
      ¬ performsIteration INITIAL_URL inputs init n) ∧
    ((∀ k : Nat, is_session_valid INITIAL_URL (inputs k).currentUrl = true) →
      ∀ n : Nat, performsIteration INITIAL_URL inputs init n) := by
  constructor
  · intro m n hmn hfalse hperf
    rw [hperf m hmn] at hfalse
    exact Bool.noConfusion hfalse
  · intro hall n k _
    rw [continuesLoop_eq_valid]
    exact hall k

/-- Witness for C6: the loop reaches iteration 3 under an always-valid
input stream, and never reaches iteration 1 when iteration 0 is
classified invalid. -/
theorem loop_termination_witness :
    performsIteration urlW goodInputs [] 3 ∧
    ¬ performsIteration urlW badInputs [] 1 := by
  constructor
  · exact (loop_termination urlW goodInputs []).2
      (fun k => (by decide : is_session_valid urlW inpSameUrl.currentUrl = true)) 3
  · exact (loop_termination urlW badInputs []).1 0 1 (by decide) (by decide)

/-- C7: a failure while injecting one cookie or restoring one storage key
never aborts the enclosing loop: whatever the pattern of failing items,
every cookie is passed to `add_cookie` (expiry-normalized, in order) with
success and error counts summing to the list length, and every
truthy-valued storage key is attempted. -/
theorem per_item_fault_tolerance :
    (∀ (attempt : Cookie → Bool) (cookies : List Cookie),
      (injectCookies attempt cookies).2.2 = cookies.map normalizeExpiry ∧
      (injectCookies attempt cookies).1 + (injectCookies attempt cookies).2.1
        = cookies.length) ∧
    (∀ (attempt : List Char → Option (List Char) → Bool)
        (entries : List (List Char × Option (List Char))),
      (restoreEntries attempt entries).1
        = (entries.filter fun kv => truthyStr kv.2).map Prod.fst) := by
  exact ⟨fun attempt cookies =>
      ⟨injectCookies_attempted attempt cookies, injectCookies_counts attempt cookies⟩,
    fun attempt entries => restoreEntries_attempted attempt entries⟩

/-- C8: the staleness check of lines 262-266 never changes the
iteration's behaviour or state: varying the cookie file's existence flag
and age changes none of the events, the held cookies, or the
continuation decision — only the logged warning flag, which is set
exactly when the file exists and is strictly older than 24 hours. -/
theorem staleness_check_frame (INITIAL_URL : List Char) (saved : List Cookie)
    (cu : List Char) (fc : List Cookie) (e1 e2 : Bool) (a1 a2 : ℚ) :
    (iterStep INITIAL_URL saved ⟨cu, fc, e1, a1⟩).events
        = (iterStep INITIAL_URL saved ⟨cu, fc, e2, a2⟩).events ∧
    (iterStep INITIAL_URL saved ⟨cu, fc, e1, a1⟩).savedAfter
        = (iterStep INITIAL_URL saved ⟨cu, fc, e2, a2⟩).savedAfter ∧
    (iterStep INITIAL_URL saved ⟨cu, fc, e1, a1⟩).continuesLoop
        = (iterStep INITIAL_URL saved ⟨cu, fc, e2, a2⟩).continuesLoop ∧
    (iterStep INITIAL_URL saved ⟨cu, fc, e1, a1⟩).staleWarning
        = (e1 && decide ((24 : ℚ) < a1)) := by
  cases hv : is_session_valid INITIAL_URL cu
  · rw [iterStep_eq_invalid INITIAL_URL saved ⟨cu, fc, e1, a1⟩ hv,
        iterStep_eq_invalid INITIAL_URL saved ⟨cu, fc, e2, a2⟩ hv]
    exact ⟨rfl, rfl, rfl, rfl⟩
  · by_cases hc : fc ≠ [] ∧ (saved.map normalizeExpiry).length ≤ fc.length
    · rw [iterStep_eq_replace INITIAL_URL saved ⟨cu, fc, e1, a1⟩ hv hc,
          iterStep_eq_replace INITIAL_URL saved ⟨cu, fc, e2, a2⟩ hv hc]
      exact ⟨rfl, rfl, rfl, rfl⟩
    · rw [iterStep_eq_keep INITIAL_URL saved ⟨cu, fc, e1, a1⟩ hv hc,
          iterStep_eq_keep INITIAL_URL saved ⟨cu, fc, e2, a2⟩ hv hc]
      exact ⟨rfl, rfl, rfl, rfl⟩

/-- C9: storage restoration skips falsy values: in a key-distinct
mapping, a key whose stored value is `None` or the empty string is never
written back into the browser, and a key with a non-empty value always
is; falsiness is exactly `None`-or-empty. -/
theorem storage_restore_skips_falsy
    (attempt : List Char → Option (List Char) → Bool)
    (entries : List (List Char × Option (List Char)))
    (hnodup : (entries.map Prod.fst).Nodup) (k : List Char) (v : Option (List Char))
    (hmem : (k, v) ∈ entries) :
    (truthyStr v = false → k ∉ (restoreEntries attempt entries).1) ∧
    (truthyStr v = true → k ∈ (restoreEntries attempt entries).1) ∧
    (truthyStr v = false ↔ v = none ∨ v = some []) := by
  refine ⟨?_, ?_, ?_⟩
  · intro hfalse hk
    rw [restoreEntries_attempted] at hk
    obtain ⟨⟨k2, v2⟩, hin, hfst⟩ := List.mem_map.mp hk
    obtain ⟨hin2, htruthy⟩ := List.mem_filter.mp hin
    have hk2 : k2 = k := hfst
    rw [hk2] at hin2
    have hv2 : v = v2 := pairMem_unique hnodup hmem hin2
    rw [hv2, htruthy] at hfalse
    exact Bool.noConfusion hfalse
  · intro htrue
    rw [restoreEntries_attempted]
    exact List.mem_map.mpr ⟨(k, v), List.mem_filter.mpr ⟨hmem, htrue⟩, rfl⟩
  · cases v with
    | none => simp [truthyStr]
    | some s => simp [truthyStr, List.isEmpty_iff]

/-- Witness for C9 on a concrete mapping: the `None`-valued key is
skipped, the non-empty-valued key is restored. -/
theorem storage_restore_skips_falsy_witness :
    "a".data ∉ (restoreEntries (fun _ _ => true) entriesW).1 ∧
    "b".data ∈ (restoreEntries (fun _ _ => true) entriesW).1 := by
  constructor
  · exact (storage_restore_skips_falsy (fun _ _ => true) entriesW (by decide)
      "a".data none (by decide)).1 rfl
  · exact (storage_restore_skips_falsy (fun _ _ => true) entriesW (by decide)
      "b".data (some "x".data) (by decide)).2.1 rfl

/-- C10: in a valid iteration the held cookie list is replaced — in
memory and, via the cookie-file write, on disk — exactly when the
freshly read list is non-empty and at least as long as the held list;
otherwise it is kept (modulo the in-place expiry normalization of lines
292-294, which preserves length); hence the held cookie count never
decreases across valid iterations. -/
theorem held_cookies_monotone (INITIAL_URL : List Char) (saved : List Cookie)
    (inp : IterInput)
    (hvalid : is_session_valid INITIAL_URL inp.currentUrl = true) :
    ((inp.freshCookies ≠ [] ∧ saved.length ≤ inp.freshCookies.length) →
      (iterStep INITIAL_URL saved inp).savedAfter = inp.freshCookies ∧
      Event.saveCookieFile ∈ (iterStep INITIAL_URL saved inp).events) ∧
    (¬ (inp.freshCookies ≠ [] ∧ saved.length ≤ inp.freshCookies.length) →
      (iterStep INITIAL_URL saved inp).savedAfter = saved.map normalizeExpiry ∧
      Event.saveCookieFile ∉ (iterStep INITIAL_URL saved inp).events) ∧
    saved.length ≤ (iterStep INITIAL_URL saved inp).savedAfter.length := by
  by_cases hc : inp.freshCookies ≠ [] ∧ saved.length ≤ inp.freshCookies.length
  · have hc2 : inp.freshCookies ≠ [] ∧
        (saved.map normalizeExpiry).length ≤ inp.freshCookies.length := by
      rw [List.length_map]
      exact hc
    rw [iterStep_eq_replace INITIAL_URL saved inp hvalid hc2]
    exact ⟨fun _ => ⟨rfl, by simp⟩, fun h => absurd hc h, hc.2⟩
  · have hc2 : ¬ (inp.freshCookies ≠ [] ∧
        (saved.map normalizeExpiry).length ≤ inp.freshCookies.length) := by
      rw [List.length_map]
      exact hc
    rw [iterStep_eq_keep INITIAL_URL saved inp hvalid hc2]
    refine ⟨fun h => absurd h hc, fun _ => ⟨rfl, by simp⟩, ?_⟩
    rw [List.length_map]

/-- Witness for C10: a valid iteration with one held cookie and one
fresh cookie replaces the held list and writes the cookie file. -/
theorem held_cookies_monotone_witness :
    (iterStep urlW [cookieW] inpGoodW).savedAfter = inpGoodW.freshCookies ∧
    Event.saveCookieFile ∈ (iterStep urlW [cookieW] inpGoodW).events := by
  exact (held_cookies_monotone urlW [cookieW] inpGoodW (by decide)).1 (by decide)

/-- Witness for C1: a URL different from the target and free of login
keywords is classified valid through the third disjunct. -/
theorem url_validity_classification_witness :
    is_session_valid urlW "https://x.org/page".data = true := by
  exact (url_validity_classification urlW "https://x.org/page".data).mpr
    (Or.inr (Or.inr (by decide)))

/-- Witness for C7: even when every driver call fails, both cookies are
attempted and every truthy-valued storage key is attempted. -/
theorem per_item_fault_tolerance_witness :
    (injectCookies (fun _ => false) [cookieFloatW, cookieW]).2.2
      = [cookieFloatW, cookieW].map normalizeExpiry ∧
    (restoreEntries (fun _ _ => false) entriesW).1
      = (entriesW.filter fun kv => truthyStr kv.2).map Prod.fst := by
  exact ⟨(per_item_fault_tolerance.1 (fun _ => false) [cookieFloatW, cookieW]).1,
    per_item_fault_tolerance.2 (fun _ _ => false) entriesW⟩

/-- Witness for C8: a stale existing cookie file and a fresh absent one
yield identical iteration events. -/
theorem staleness_check_frame_witness :
    (iterStep urlW [cookieW] ⟨urlW, [], true, 30⟩).events
      = (iterStep urlW [cookieW] ⟨urlW, [], false, 0⟩).events := by
  exact (staleness_check_frame urlW [cookieW] urlW [] true false 30 0).1
